import Mathlib

/-!
Shallow embedding of the booking lifecycle component of the rental-server
backend (routes/guest.js and routes/host.js, Prisma schema).

Dates are modelled as millisecond timestamps (`Int`), prices as rationals
(`ℚ`), and the persistent store as explicit lists threaded through each
operation.  Each route handler becomes a function from a state and the
request data to a result and an updated state, following the source's
control flow branch by branch.
-/

namespace RentalServer

/-- Booking status strings from the Prisma schema:
pending, confirmed, cancelled, completed. -/
inductive BookingStatus where
  | pending
  | confirmed
  | cancelled
  | completed
deriving DecidableEq

/-- Rental period enum from the Prisma schema (absent for SALE listings). -/
inductive RentalPeriod where
  | DAY
  | MONTH
  | YEAR
deriving DecidableEq

/-- UserRole enum from the Prisma schema. -/
inductive UserRole where
  | ADMIN
  | HOST
  | USER
deriving DecidableEq

/-- The fields of model Property that the booking logic reads. -/
structure Property where
  id : Nat
  hostId : Nat
  price : ℚ
  rentalPeriod : Option RentalPeriod
  isAvailable : Bool
  availableFrom : Option Int
  availableTo : Option Int
deriving DecidableEq

/-- The fields of model Booking. -/
structure Booking where
  id : Nat
  propertyId : Nat
  guestId : Nat
  startDate : Int
  endDate : Int
  guestCount : Nat
  totalPrice : ℚ
  status : BookingStatus
  paymentStatus : String
deriving DecidableEq

/-- The fields of model Review (bookingId is @unique in the schema). -/
structure Review where
  id : Nat
  propertyId : Nat
  userId : Nat
  bookingId : Nat
  rating : Int
  comment : Option String
deriving DecidableEq

/-- The persistent store threaded through the route handlers. -/
structure AppState where
  properties : List Property
  bookings : List Booking
  reviews : List Review
  nextBookingId : Nat
  nextReviewId : Nat
deriving DecidableEq

/-- `status: { in: ["pending", "confirmed"] }` filter used by both the
availability endpoint and booking creation. -/
def statusActive : BookingStatus → Bool
  | .pending => true
  | .confirmed => true
  | .cancelled => false
  | .completed => false

/-- The Prisma overlap condition `startDate: { lte: end }, endDate: { gte: start }`. -/
def overlapsRange (b : Booking) (s e : Int) : Bool :=
  decide (b.startDate ≤ e) && decide (b.endDate ≥ s)

/-- The `prisma.booking.findMany` query shared by the availability endpoint
and booking creation: bookings of the property, active status, overlapping
the requested range. -/
def conflictingBookings (bookings : List Booking) (propertyId : Nat) (s e : Int) :
    List Booking :=
  bookings.filter (fun b => b.propertyId == propertyId && statusActive b.status
    && overlapsRange b s e)

/-- `property.availableFrom && start < property.availableFrom` in the
availability endpoint. -/
def windowStartViolated (availableFrom : Option Int) (s : Int) : Bool :=
  match availableFrom with
  | some f => decide (s < f)
  | none => false

/-- `property.availableTo && end > property.availableTo` in the
availability endpoint. -/
def windowEndViolated (availableTo : Option Int) (e : Int) : Bool :=
  match availableTo with
  | some t => decide (e > t)
  | none => false

/-- The JSON shape of the availability endpoint's answer: the `available`
flag, and the `conflictingDates` array when present. -/
structure AvailabilityResponse where
  available : Bool
  conflictingDates : Option (List (Int × Int))
deriving DecidableEq

/-- GET /properties/:id/availability (guest.js): availability flag check,
availability-window checks, then overlap query; the conflict branch returns
the conflicting date ranges. -/
def checkAvailability (p : Property) (bookings : List Booking) (s e : Int) :
    AvailabilityResponse :=
  if p.isAvailable = false then ⟨false, none⟩
  else if windowStartViolated p.availableFrom s then ⟨false, none⟩
  else if windowEndViolated p.availableTo e then ⟨false, none⟩
  else
    let conflicts := conflictingBookings bookings p.id s e
    if conflicts = [] then ⟨true, none⟩
    else ⟨false, some (conflicts.map (fun b => (b.startDate, b.endDate)))⟩

/-- Milliseconds per day, `1000 * 60 * 60 * 24` in the source. -/
def msPerDay : Nat := 1000 * 60 * 60 * 24

/-- `Math.ceil(Math.abs(end - start) / msPerDay)` followed by
`if (days === 0) days = 1`. -/
def computeDays (s e : Int) : Nat :=
  let diffTime := (e - s).natAbs
  let days := (diffTime + (msPerDay - 1)) / msPerDay
  if days = 0 then 1 else days

/-- The `switch (property.rentalPeriod)` price computation of POST /bookings. -/
def computeTotalPrice (p : Property) (s e : Int) : ℚ :=
  let days := computeDays s e
  match p.rentalPeriod with
  | some .DAY => p.price * days
  | some .MONTH => p.price * ((days : ℚ) / 30)
  | some .YEAR => p.price * ((days : ℚ) / 365)
  | none => p.price

/-- The body of POST /bookings. -/
structure BookingRequest where
  propertyId : Nat
  startDate : Int
  endDate : Int
  guestCount : Nat
deriving DecidableEq

/-- Outcomes of POST /bookings, one constructor per return branch. -/
inductive CreateBookingResult where
  | propertyNotFound
  | propertyNotAvailable
  | selfBooking
  | badDateOrder
  | startInPast
  | datesConflict
  | created (b : Booking)
deriving DecidableEq

/-- POST /bookings (guest.js): property lookup, availability flag,
self-booking guard, date-order and past-date validation, overlap check,
then creation of a pending unpaid booking. -/
def createBooking (st : AppState) (userId : Nat) (now : Int) (req : BookingRequest) :
    CreateBookingResult × AppState :=
  match st.properties.find? (fun p => p.id == req.propertyId) with
  | none => (.propertyNotFound, st)
  | some property =>
    if property.isAvailable = false then (.propertyNotAvailable, st)
    else if property.hostId = userId then (.selfBooking, st)
    else if req.startDate ≥ req.endDate then (.badDateOrder, st)
    else if req.startDate < now then (.startInPast, st)
    else if conflictingBookings st.bookings req.propertyId req.startDate req.endDate ≠ [] then
      (.datesConflict, st)
    else
      let b : Booking :=
        { id := st.nextBookingId
          propertyId := req.propertyId
          guestId := userId
          startDate := req.startDate
          endDate := req.endDate
          guestCount := req.guestCount
          totalPrice := computeTotalPrice property req.startDate req.endDate
          status := .pending
          paymentStatus := "unpaid" }
      (.created b,
        { st with bookings := st.bookings ++ [b], nextBookingId := st.nextBookingId + 1 })

/-- `(startDate - now) / (1000 * 60 * 60)` from the cancellation handler. -/
def hoursUntilStart (startDate now : Int) : ℚ :=
  ((startDate - now : Int) : ℚ) / (1000 * 60 * 60)

/-- `prisma.booking.update` of the status field: every stored booking with
the given id gets the new status. -/
def setStatus (bookings : List Booking) (bookingId : Nat) (s : BookingStatus) :
    List Booking :=
  bookings.map (fun b => if b.id = bookingId then { b with status := s } else b)

/-- Outcomes of PUT /bookings/:id/cancel, one constructor per return branch. -/
inductive CancelResult where
  | bookingNotFound
  | notOwner
  | badStatus (s : BookingStatus)
  | tooCloseToStart
  | cancelled (b : Booking)
deriving DecidableEq

/-- PUT /bookings/:id/cancel (guest.js): lookup, ownership guard, status
guard (pending or confirmed only), 24-hour cutoff, then status update. -/
def cancelBooking (st : AppState) (userId : Nat) (now : Int) (bookingId : Nat) :
    CancelResult × AppState :=
  match st.bookings.find? (fun b => b.id == bookingId) with
  | none => (.bookingNotFound, st)
  | some booking =>
    if booking.guestId ≠ userId then (.notOwner, st)
    else if booking.status ≠ .pending ∧ booking.status ≠ .confirmed then
      (.badStatus booking.status, st)
    else if hoursUntilStart booking.startDate now < 24 then (.tooCloseToStart, st)
    else
      (.cancelled { booking with status := .cancelled },
        { st with bookings := setStatus st.bookings bookingId .cancelled })

/-- Outcomes of PUT /bookings/:id/status, one constructor per return branch. -/
inductive StatusUpdateResult where
  | roleForbidden
  | invalidStatus
  | bookingNotFound
  | propertyMissing
  | notAuthorized
  | updated (b : Booking)
deriving DecidableEq

/-- PUT /bookings/:id/status (host.js): the isHostOrAdmin middleware, the
`["confirmed", "cancelled", "completed"].includes(status)` validation
(a missing body field is `none`), booking lookup, host-or-admin ownership
check, then an unconditional status update — the current status is never
consulted. -/
def updateBookingStatus (st : AppState) (userId : Nat) (role : UserRole)
    (bookingId : Nat) (status : Option BookingStatus) :
    StatusUpdateResult × AppState :=
  if role ≠ .HOST ∧ role ≠ .ADMIN then (.roleForbidden, st)
  else
    match status with
    | none => (.invalidStatus, st)
    | some s =>
      if s = .pending then (.invalidStatus, st)
      else
        match st.bookings.find? (fun b => b.id == bookingId) with
        | none => (.bookingNotFound, st)
        | some booking =>
          match st.properties.find? (fun p => p.id == booking.propertyId) with
          | none => (.propertyMissing, st)
          | some property =>
            if property.hostId ≠ userId ∧ role ≠ .ADMIN then (.notAuthorized, st)
            else
              (.updated { booking with status := s },
                { st with bookings := setStatus st.bookings bookingId s })

/-- The body of POST /reviews; the rating arrives as a JSON number. -/
structure ReviewRequest where
  bookingId : Nat
  propertyId : Nat
  rating : ℚ
  comment : Option String
deriving DecidableEq

/-- JavaScript `parseInt` applied to a number in the handler: truncation
toward zero. -/
def jsTruncToInt (q : ℚ) : Int :=
  if q < 0 then -(Int.floor (-q)) else Int.floor q

/-- Outcomes of POST /reviews, one constructor per return branch. -/
inductive AddReviewResult where
  | missingFields
  | ratingOutOfRange
  | bookingNotFound
  | notOwner
  | propertyMismatch
  | bookingNotCompleted
  | reviewExists
  | created (r : Review)
deriving DecidableEq

/-- POST /reviews (guest.js): falsy-field presence check, the
`rating < 1 || rating > 5` range check, booking lookup, ownership,
property-match and completed-status guards, duplicate check against the
unique booking reference, then creation storing `parseInt(rating)`. -/
def addReview (st : AppState) (userId : Nat) (req : ReviewRequest) :
    AddReviewResult × AppState :=
  if req.bookingId = 0 ∨ req.propertyId = 0 ∨ req.rating = 0 then (.missingFields, st)
  else if req.rating < 1 ∨ req.rating > 5 then (.ratingOutOfRange, st)
  else
    match st.bookings.find? (fun b => b.id == req.bookingId) with
    | none => (.bookingNotFound, st)
    | some booking =>
      if booking.guestId ≠ userId then (.notOwner, st)
      else if booking.propertyId ≠ req.propertyId then (.propertyMismatch, st)
      else if booking.status ≠ .completed then (.bookingNotCompleted, st)
      else
        match st.reviews.find? (fun r => r.bookingId == req.bookingId) with
        | some _ => (.reviewExists, st)
        | none =>
          let r : Review :=
            { id := st.nextReviewId
              propertyId := req.propertyId
              userId := userId
              bookingId := req.bookingId
              rating := jsTruncToInt req.rating
              comment := req.comment }
          (.created r,
            { st with reviews := st.reviews ++ [r], nextReviewId := st.nextReviewId + 1 })

/-- Two bookings on the same property, both pending or confirmed, whose
closed date ranges overlap. -/
def conflictingPair (b1 b2 : Booking) : Prop :=
  b1.propertyId = b2.propertyId ∧ statusActive b1.status = true ∧
  statusActive b2.status = true ∧ b1.startDate ≤ b2.endDate ∧ b1.endDate ≥ b2.startDate

instance (b1 b2 : Booking) : Decidable (conflictingPair b1 b2) := by
  unfold conflictingPair; infer_instance

/-- No two distinct stored bookings form a conflicting pair. -/
def NoOverlapInvariant (st : AppState) : Prop :=
  st.bookings.Pairwise (fun b1 b2 => ¬ conflictingPair b1 b2)

instance (st : AppState) : Decidable (NoOverlapInvariant st) := by
  unfold NoOverlapInvariant; infer_instance

/-- A state transition caused by one of the guest-facing booking routes. -/
inductive GuestStep : AppState → AppState → Prop where
  | create (st : AppState) (userId : Nat) (now : Int) (req : BookingRequest) :
      GuestStep st (createBooking st userId now req).2
  | cancel (st : AppState) (userId : Nat) (now : Int) (bookingId : Nat) :
      GuestStep st (cancelBooking st userId now bookingId).2

/-- A state transition caused by any booking route, guest- or host-facing. -/
inductive SysStep : AppState → AppState → Prop where
  | guest (st st2 : AppState) (h : GuestStep st st2) : SysStep st st2
  | host (st : AppState) (userId : Nat) (role : UserRole) (bookingId : Nat)
      (status : Option BookingStatus) :
      SysStep st (updateBookingStatus st userId role bookingId status).2

/-- States reachable through any sequence of booking operations. -/
def Reachable : AppState → AppState → Prop := Relation.ReflTransGen SysStep

/-- States reachable through guest-facing booking operations only. -/
def GuestReachable : AppState → AppState → Prop := Relation.ReflTransGen GuestStep

/-- One millisecond-denominated day. -/
def dayMs : Int := 86400000

/-- A concrete available DAY-period property, host 1, price 100. -/
def demoProperty : Property :=
  { id := 1
    hostId := 1
    price := 100
    rentalPeriod := some .DAY
    isAvailable := true
    availableFrom := none
    availableTo := none }

/-- Initial store: one property, no bookings, no reviews. -/
def breachSt0 : AppState :=
  { properties := [demoProperty]
    bookings := []
    reviews := []
    nextBookingId := 1
    nextReviewId := 1 }

/-- Booking request for days 10 to 12 on property 1. -/
def breachReq : BookingRequest :=
  { propertyId := 1, startDate := 10 * dayMs, endDate := 12 * dayMs, guestCount := 2 }

/-- Guest 2 books property 1 for days 10 to 12. -/
def breachSt1 : AppState := (createBooking breachSt0 2 0 breachReq).2

/-- Guest 2 cancels booking 1 (well before the 24-hour cutoff). -/
def breachSt2 : AppState := (cancelBooking breachSt1 2 0 1).2

/-- Guest 3 books the same dates, allowed because booking 1 is cancelled. -/
def breachSt3 : AppState := (createBooking breachSt2 3 0 breachReq).2

/-- Host 1 sets the cancelled booking 1 back to confirmed. -/
def breachSt4 : AppState := (updateBookingStatus breachSt3 1 .HOST 1 (some .confirmed)).2

/-- The booking created by the first step of the breach trace. -/
def breachB1 : Booking :=
  { id := 1, propertyId := 1, guestId := 2, startDate := 10 * dayMs, endDate := 12 * dayMs,
    guestCount := 2, totalPrice := 200, status := .pending, paymentStatus := "unpaid" }

/-- The booking created by the third step of the breach trace. -/
def breachB2 : Booking := { breachB1 with id := 2, guestId := 3 }

lemma breachSt1_eq : breachSt1 = { breachSt0 with bookings := [breachB1], nextBookingId := 2 } := by
  norm_num [breachSt1, createBooking, breachSt0, demoProperty, breachReq, conflictingBookings,
    List.find?, computeTotalPrice, computeDays, msPerDay, dayMs, breachB1]

lemma breachSt2_eq : breachSt2 =
    { breachSt0 with
      bookings := [{ breachB1 with status := .cancelled }]
      nextBookingId := 2 } := by
  norm_num [breachSt2, breachSt1_eq, cancelBooking, breachSt0, List.find?, breachB1, breachReq,
    hoursUntilStart, setStatus, dayMs]

lemma breachSt3_eq : breachSt3 =
    { breachSt0 with
      bookings := [{ breachB1 with status := .cancelled }, breachB2]
      nextBookingId := 3 } := by
  norm_num [breachSt3, breachSt2_eq, createBooking, breachSt0, demoProperty, breachReq,
    conflictingBookings, List.find?, computeTotalPrice, computeDays, msPerDay, dayMs,
    breachB1, breachB2, statusActive, overlapsRange]

lemma breachSt4_eq : breachSt4 =
    { breachSt0 with
      bookings := [{ breachB1 with status := .confirmed }, breachB2]
      nextBookingId := 3 } := by
  norm_num [breachSt4, breachSt3_eq, updateBookingStatus, breachSt0, demoProperty, List.find?,
    breachB1, breachB2, setStatus, dayMs]
  rw [if_neg (by simp : ¬ (BookingStatus.confirmed = BookingStatus.pending))]

lemma not_noOverlap_breachSt4 : ¬ NoOverlapInvariant breachSt4 := by
  rw [breachSt4_eq]
  norm_num [NoOverlapInvariant, conflictingPair, breachB1, breachB2, statusActive, dayMs,
    breachSt0]

lemma reachable_breachSt4 : Reachable breachSt0 breachSt4 := by
  have h1 : SysStep breachSt0 breachSt1 :=
    SysStep.guest _ _ (GuestStep.create breachSt0 2 0 breachReq)
  have h2 : SysStep breachSt1 breachSt2 :=
    SysStep.guest _ _ (GuestStep.cancel breachSt1 2 0 1)
  have h3 : SysStep breachSt2 breachSt3 :=
    SysStep.guest _ _ (GuestStep.create breachSt2 3 0 breachReq)
  have h4 : SysStep breachSt3 breachSt4 :=
    SysStep.host breachSt3 1 .HOST 1 (some .confirmed)
  exact Relation.ReflTransGen.tail
    (Relation.ReflTransGen.tail
      (Relation.ReflTransGen.tail (Relation.ReflTransGen.single h1) h2) h3) h4

/-- The membership reading of an empty conflict query. -/
lemma conflictingBookings_eq_nil (l : List Booking) (pid : Nat) (s e : Int) :
    conflictingBookings l pid s e = [] ↔
      ∀ b ∈ l, ¬(b.propertyId = pid ∧ statusActive b.status = true ∧
        b.startDate ≤ e ∧ b.endDate ≥ s) := by
  rw [conflictingBookings, List.filter_eq_nil_iff]
  constructor
  · intro h b hb hc
    apply h b hb
    obtain ⟨h1, h2, h3, h4⟩ := hc
    simp [overlapsRange, h1, h2, h3, h4]
  · intro h b hb hbool
    simp only [Bool.and_eq_true, beq_iff_eq, overlapsRange, decide_eq_true_eq] at hbool
    exact h b hb ⟨hbool.1.1, hbool.1.2, hbool.2.1, hbool.2.2⟩

/-- POST /bookings preserves the no-overlap invariant: the created booking
passed the overlap query against every stored active booking. -/
lemma noOverlap_createBooking (st : AppState) (userId : Nat) (now : Int)
    (req : BookingRequest) (h : NoOverlapInvariant st) :
    NoOverlapInvariant (createBooking st userId now req).2 := by
  unfold createBooking
  cases hfind : st.properties.find? (fun p => p.id == req.propertyId) with
  | none => exact h
  | some property =>
    dsimp only
    split
    · exact h
    split
    · exact h
    split
    · exact h
    split
    · exact h
    split
    · exact h
    next hconf =>
      rw [not_not] at hconf
      unfold NoOverlapInvariant at h ⊢
      dsimp only
      rw [List.pairwise_append]
      refine ⟨h, List.pairwise_singleton _ _, ?_⟩
      intro a ha b hb hcp
      simp only [List.mem_singleton] at hb
      subst hb
      obtain ⟨h1, h2, _, h4, h5⟩ := hcp
      exact (conflictingBookings_eq_nil st.bookings req.propertyId req.startDate
        req.endDate).mp hconf a ha ⟨h1, h2, h4, h5⟩

/-- A conflicting pair after a status overwrite with an inactive status was
already conflicting before the overwrite. -/
lemma conflictingPair_of_update (bookingId : Nat) (s : BookingStatus)
    (hs : statusActive s = false) (x y : Booking)
    (hcp : conflictingPair (if x.id = bookingId then { x with status := s } else x)
      (if y.id = bookingId then { y with status := s } else y)) :
    conflictingPair x y := by
  by_cases hx : x.id = bookingId
  · rw [if_pos hx] at hcp
    have hact : statusActive s = true := hcp.2.1
    rw [hs] at hact
    exact absurd hact (by simp)
  · rw [if_neg hx] at hcp
    by_cases hy : y.id = bookingId
    · rw [if_pos hy] at hcp
      have hact : statusActive s = true := hcp.2.2.1
      rw [hs] at hact
      exact absurd hact (by simp)
    · rw [if_neg hy] at hcp
      exact hcp

/-- Overwriting a status with an inactive one only removes conflicts. -/
lemma noOverlap_setStatus_inactive (st : AppState) (bookingId : Nat) (s : BookingStatus)
    (hs : statusActive s = false) (h : NoOverlapInvariant st) :
    NoOverlapInvariant { st with bookings := setStatus st.bookings bookingId s } := by
  unfold NoOverlapInvariant at h ⊢
  unfold setStatus
  dsimp only
  rw [List.pairwise_map]
  refine h.imp ?_
  intro a b hab hcp
  exact hab (conflictingPair_of_update bookingId s hs a b hcp)

/-- PUT /bookings/:id/cancel preserves the no-overlap invariant. -/
lemma noOverlap_cancelBooking (st : AppState) (userId : Nat) (now : Int) (bookingId : Nat)
    (h : NoOverlapInvariant st) :
    NoOverlapInvariant (cancelBooking st userId now bookingId).2 := by
  unfold cancelBooking
  cases hfind : st.bookings.find? (fun b => b.id == bookingId) with
  | none => exact h
  | some booking =>
    dsimp only
    split
    · exact h
    split
    · exact h
    split
    · exact h
    exact noOverlap_setStatus_inactive st bookingId .cancelled rfl h

lemma c2upd_eq : (updateBookingStatus breachSt2 1 .HOST 1 (some .confirmed)).2 =
    { breachSt0 with
      bookings := [{ breachB1 with status := .confirmed }]
      nextBookingId := 2 } := by
  norm_num [breachSt2_eq, updateBookingStatus, breachSt0, demoProperty, List.find?, breachB1,
    setStatus, dayMs]
  rw [if_neg (by simp : ¬ (BookingStatus.confirmed = BookingStatus.pending))]

/-- C1 counterexample: from an initial store with one property and no
bookings, guest 2 books days 10-12, cancels, guest 3 books the same days,
and the host re-confirms the cancelled booking through PUT
/bookings/:id/status; the resulting reachable state holds two distinct
pending-or-confirmed bookings on the same property with overlapping
closed date ranges. -/
theorem c1_counterexample :
    breachSt0.bookings = [] ∧ Reachable breachSt0 breachSt4 ∧
      ¬ NoOverlapInvariant breachSt4 :=
  ⟨rfl, reachable_breachSt4, not_noOverlap_breachSt4⟩

/-- C1 (amended): every state reachable from a booking-free store using only
createBooking and guest cancellation satisfies the no-overlap invariant; the
host status update is excluded because it re-activates bookings without any
overlap check. -/
theorem c1_guest_ops_no_overlap (st0 st : AppState) (h0 : st0.bookings = [])
    (h : GuestReachable st0 st) : NoOverlapInvariant st := by
  induction h with
  | refl =>
    unfold NoOverlapInvariant
    rw [h0]
    exact List.Pairwise.nil
  | tail hab hbc ih =>
    cases hbc with
    | create userId now req => exact noOverlap_createBooking _ userId now req ih
    | cancel userId now bookingId => exact noOverlap_cancelBooking _ userId now bookingId ih

/-- Witness for C1 (amended): the three guest steps of the breach trace
reach a state still satisfying the invariant. -/
theorem c1_guest_ops_no_overlap_witness : NoOverlapInvariant breachSt3 :=
  c1_guest_ops_no_overlap breachSt0 breachSt3 rfl
    (Relation.ReflTransGen.tail
      (Relation.ReflTransGen.tail
        (Relation.ReflTransGen.single (GuestStep.create breachSt0 2 0 breachReq))
        (GuestStep.cancel breachSt1 2 0 1))
      (GuestStep.create breachSt2 3 0 breachReq))

/-- C2 counterexample: in the reachable state breachSt2 the only booking is
cancelled, yet the host status update flips it to confirmed, so cancelled is
not terminal. -/
theorem c2_counterexample :
    Reachable breachSt0 breachSt2 ∧
    breachSt2.bookings.map Booking.status = [BookingStatus.cancelled] ∧
    (updateBookingStatus breachSt2 1 .HOST 1 (some .confirmed)).2.bookings.map Booking.status
      = [BookingStatus.confirmed] := by
  refine ⟨?_, ?_, ?_⟩
  · exact Relation.ReflTransGen.tail
      (Relation.ReflTransGen.single
        (SysStep.guest _ _ (GuestStep.create breachSt0 2 0 breachReq)))
      (SysStep.guest _ _ (GuestStep.cancel breachSt1 2 0 1))
  · rw [breachSt2_eq]; rfl
  · rw [c2upd_eq]; rfl

/-- C2 (amended): cancelled and completed are terminal with respect to guest
cancellation, which fails and leaves the store unchanged on such bookings;
the host/admin status update can still overwrite them. -/
theorem c2_guest_cancel_terminal (st : AppState) (userId : Nat) (now : Int)
    (bookingId : Nat) (b : Booking)
    (hfind : st.bookings.find? (fun x => x.id == bookingId) = some b)
    (hterm : b.status = .cancelled ∨ b.status = .completed) :
    (∀ b2, (cancelBooking st userId now bookingId).1 ≠ .cancelled b2) ∧
    (cancelBooking st userId now bookingId).2 = st := by
  have hcond : b.status ≠ .pending ∧ b.status ≠ .confirmed := by
    rcases hterm with h | h <;> rw [h] <;> exact ⟨by simp, by simp⟩
  unfold cancelBooking
  rw [hfind]
  dsimp only
  by_cases hown : b.guestId ≠ userId
  · rw [if_pos hown]
    exact ⟨fun b2 => by simp, rfl⟩
  · rw [if_neg hown, if_pos hcond]
    exact ⟨fun b2 => by simp, rfl⟩

/-- Witness for C2 (amended): guest 2 cannot cancel the already-cancelled
booking of breachSt2. -/
theorem c2_guest_cancel_terminal_witness :
    (∀ b2, (cancelBooking breachSt2 2 0 1).1 ≠ .cancelled b2) ∧
    (cancelBooking breachSt2 2 0 1).2 = breachSt2 :=
  c2_guest_cancel_terminal breachSt2 2 0 1 { breachB1 with status := .cancelled }
    (by rw [breachSt2_eq]; rfl) (Or.inl rfl)

/-- The spec's day count: ceil((endDate - startDate) / 1 day), minimum 1.
Stated from the spec's words, to be compared with computeDays. -/
def specDays (s e : Int) : Nat :=
  max 1 (((e - s).toNat + (msPerDay - 1)) / msPerDay)

/-- The spec's price formula, stated from the spec's words, to be compared
with the source's computeTotalPrice. -/
def specTotalPrice (price : ℚ) (rp : Option RentalPeriod) (s e : Int) : ℚ :=
  let days := specDays s e
  match rp with
  | some .DAY => price * days
  | some .MONTH => price * ((days : ℚ) / 30)
  | some .YEAR => price * ((days : ℚ) / 365)
  | none => price

lemma computeDays_eq_spec (s e : Int) (h : s < e) : computeDays s e = specDays s e := by
  unfold computeDays specDays msPerDay
  have h1 : (e - s).natAbs = (e - s).toNat := by omega
  rw [h1]
  have h2 : 1 ≤ ((e - s).toNat + (1000 * 60 * 60 * 24 - 1)) / (1000 * 60 * 60 * 24) := by
    rw [Nat.le_div_iff_mul_le (by norm_num)]
    omega
  rw [if_neg (by omega)]
  exact (Nat.max_eq_right h2).symm

lemma computeTotalPrice_eq_spec (p : Property) (s e : Int) (h : s < e) :
    computeTotalPrice p s e = specTotalPrice p.price p.rentalPeriod s e := by
  unfold computeTotalPrice specTotalPrice
  rw [computeDays_eq_spec s e h]

/-- C3: the persisted totalPrice of every successful booking with ordered
dates equals the spec's formula: days = ceil((end - start) / 1 day) with a
minimum of 1, price * days for DAY, price * (days / 30) for MONTH,
price * (days / 365) for YEAR, and exactly price when the listing carries no
rental period. -/
theorem c3_totalPrice (st : AppState) (userId : Nat) (now : Int) (req : BookingRequest)
    (property : Property) (b : Booking)
    (hfind : st.properties.find? (fun p => p.id == req.propertyId) = some property)
    (horder : req.startDate < req.endDate)
    (hres : (createBooking st userId now req).1 = .created b) :
    b.totalPrice = specTotalPrice property.price property.rentalPeriod
      req.startDate req.endDate := by
  unfold createBooking at hres
  rw [hfind] at hres
  dsimp only at hres
  split at hres
  · exact absurd hres (by simp)
  split at hres
  · exact absurd hres (by simp)
  split at hres
  · exact absurd hres (by simp)
  split at hres
  · exact absurd hres (by simp)
  split at hres
  · exact absurd hres (by simp)
  cases hres
  exact computeTotalPrice_eq_spec property req.startDate req.endDate horder

/-- Midnight UTC on 2024-01-01, in milliseconds. -/
def jan1_2024 : Int := 1704067200000

/-- Midnight UTC on 2024-01-04, in milliseconds. -/
def jan4_2024 : Int := 1704326400000

/-- The booking request of the spec's worked example: property 1, three
days starting 2024-01-01. -/
def c3Req : BookingRequest :=
  { propertyId := 1, startDate := jan1_2024, endDate := jan4_2024, guestCount := 2 }

/-- The booking the worked example creates: 3 DAY-periods at 100. -/
def c3Booking : Booking :=
  { id := 1, propertyId := 1, guestId := 2, startDate := jan1_2024, endDate := jan4_2024,
    guestCount := 2, totalPrice := 300, status := .pending, paymentStatus := "unpaid" }

lemma c3create_eq : (createBooking breachSt0 2 jan1_2024 c3Req).1 = .created c3Booking := by
  norm_num [createBooking, breachSt0, demoProperty, c3Req, conflictingBookings, List.find?,
    computeTotalPrice, computeDays, msPerDay, jan1_2024, jan4_2024, c3Booking]

/-- Witness for C3: a DAY-period property priced at 100 booked
2024-01-01 to 2024-01-04 yields totalPrice 300, matching the spec formula. -/
theorem c3_totalPrice_witness :
    (createBooking breachSt0 2 jan1_2024 c3Req).1 = .created c3Booking ∧
    c3Booking.totalPrice = specTotalPrice 100 (some .DAY) jan1_2024 jan4_2024 ∧
    c3Booking.totalPrice = 300 :=
  ⟨c3create_eq,
    c3_totalPrice breachSt0 2 jan1_2024 c3Req demoProperty c3Booking rfl
      (by norm_num [c3Req, jan1_2024, jan4_2024]) c3create_eq,
    rfl⟩

lemma windowStartViolated_iff (o : Option Int) (s : Int) :
    windowStartViolated o s = true ↔ ∃ f, o = some f ∧ s < f := by
  cases o <;> simp [windowStartViolated]

lemma windowEndViolated_iff (o : Option Int) (e : Int) :
    windowEndViolated o e = true ↔ ∃ t, o = some t ∧ e > t := by
  cases o <;> simp [windowEndViolated]

lemma conflictingBookings_ne_nil (l : List Booking) (pid : Nat) (s e : Int) :
    conflictingBookings l pid s e ≠ [] ↔
      ∃ b ∈ l, b.propertyId = pid ∧ statusActive b.status = true ∧
        b.startDate ≤ e ∧ b.endDate ≥ s := by
  constructor
  · intro h
    by_contra hc
    apply h
    rw [conflictingBookings_eq_nil]
    intro b hb hp
    exact hc ⟨b, hb, hp⟩
  · rintro ⟨b, hb, hp⟩ h
    rw [conflictingBookings_eq_nil] at h
    exact h b hb hp

/-- C4: the availability endpoint reports not-available exactly when the
property's flag is off, or the requested start precedes availableFrom, or
the requested end exceeds availableTo, or some pending/confirmed booking
overlaps under the inclusive test; and the conflictingDates list is
returned exactly from the overlap branch, holding the conflicting ranges. -/
theorem c4_availability (p : Property) (l : List Booking) (s e : Int) :
    ((checkAvailability p l s e).available = false ↔
      (p.isAvailable = false ∨ (∃ f, p.availableFrom = some f ∧ s < f) ∨
       (∃ t, p.availableTo = some t ∧ e > t) ∨
       ∃ b ∈ l, b.propertyId = p.id ∧ statusActive b.status = true ∧
         b.startDate ≤ e ∧ b.endDate ≥ s)) ∧
    (∀ ds, (checkAvailability p l s e).conflictingDates = some ds ↔
      (p.isAvailable = true ∧ windowStartViolated p.availableFrom s = false ∧
       windowEndViolated p.availableTo e = false ∧
       conflictingBookings l p.id s e ≠ [] ∧
       ds = (conflictingBookings l p.id s e).map (fun b => (b.startDate, b.endDate)))) := by
  unfold checkAvailability
  by_cases h1 : p.isAvailable = false
  · rw [if_pos h1]
    constructor
    · simp [h1]
    · intro ds
      simp [h1]
  · have h1t : p.isAvailable = true := by revert h1; cases p.isAvailable <;> simp
    rw [if_neg h1]
    by_cases h2 : windowStartViolated p.availableFrom s = true
    · rw [if_pos h2]
      constructor
      · simp [h1t, (windowStartViolated_iff _ _).mp h2]
      · intro ds
        simp [h2]
    · have h2f : windowStartViolated p.availableFrom s = false := by
        revert h2; cases windowStartViolated p.availableFrom s <;> simp
      rw [if_neg h2]
      by_cases h3 : windowEndViolated p.availableTo e = true
      · rw [if_pos h3]
        constructor
        · simp [h1t, (windowEndViolated_iff _ _).mp h3]
        · intro ds
          simp [h3]
      · have h3f : windowEndViolated p.availableTo e = false := by
          revert h3; cases windowEndViolated p.availableTo e <;> simp
        rw [if_neg h3]
        by_cases h4 : conflictingBookings l p.id s e = []
        · rw [if_pos h4]
          constructor
          · simp only [show (⟨true, none⟩ : AvailabilityResponse).available = true from rfl]
            constructor
            · intro hfa; cases hfa
            · intro hrhs
              exfalso
              rcases hrhs with hx | hx | hx | hx
              · rw [h1t] at hx; cases hx
              · exact h2 ((windowStartViolated_iff _ _).mpr hx)
              · exact h3 ((windowEndViolated_iff _ _).mpr hx)
              · exact ((conflictingBookings_ne_nil l p.id s e).mpr hx) h4
          · intro ds
            simp [h4]
        · rw [if_neg h4]
          constructor
          · simp only [show (⟨false, some ((conflictingBookings l p.id s e).map
              (fun b => (b.startDate, b.endDate)))⟩ : AvailabilityResponse).available
                = false from rfl]
            constructor
            · intro _
              exact Or.inr (Or.inr (Or.inr ((conflictingBookings_ne_nil l p.id s e).mp h4)))
            · intro _; trivial
          · intro ds
            simp only [show (⟨false, some ((conflictingBookings l p.id s e).map
              (fun b => (b.startDate, b.endDate)))⟩ : AvailabilityResponse).conflictingDates
                = some ((conflictingBookings l p.id s e).map
                  (fun b => (b.startDate, b.endDate))) from rfl, Option.some_inj]
            constructor
            · intro hds
              exact ⟨h1t, h2f, h3f, h4, hds.symm⟩
            · intro hds
              exact hds.2.2.2.2.symm

/-- Witness for C4: the pending booking for days 10-12 makes a request for
days 0-11 unavailable. -/
theorem c4_availability_witness :
    (checkAvailability demoProperty [breachB1] 0 (11 * dayMs)).available = false :=
  (c4_availability demoProperty [breachB1] 0 (11 * dayMs)).1.mpr
    (Or.inr (Or.inr (Or.inr ⟨breachB1, by simp,
      by norm_num [breachB1, demoProperty, statusActive, dayMs]⟩)))

lemma hoursUntilStart_lt_24_iff (startDate now : Int) :
    hoursUntilStart startDate now < 24 ↔ startDate - now < 86400000 := by
  unfold hoursUntilStart
  rw [div_lt_iff₀ (by norm_num : (0:ℚ) < 1000 * 60 * 60)]
  constructor <;> intro h <;> exact_mod_cast h

/-- C5: for the booking's own guest, cancellation succeeds (booking becomes
cancelled, store updated) exactly when the status is pending or confirmed
and the call time is at least 24 hours before startDate; otherwise the
store is unchanged. -/
theorem c5_cancel_iff (st : AppState) (userId : Nat) (now : Int) (bookingId : Nat)
    (b : Booking)
    (hfind : st.bookings.find? (fun x => x.id == bookingId) = some b)
    (hown : b.guestId = userId) :
    (((cancelBooking st userId now bookingId).1 =
        .cancelled { b with status := .cancelled } ∧
      (cancelBooking st userId now bookingId).2 =
        { st with bookings := setStatus st.bookings bookingId .cancelled }) ↔
      ((b.status = .pending ∨ b.status = .confirmed) ∧ now + 86400000 ≤ b.startDate)) ∧
    (¬((b.status = .pending ∨ b.status = .confirmed) ∧ now + 86400000 ≤ b.startDate) →
      (cancelBooking st userId now bookingId).2 = st) := by
  unfold cancelBooking
  rw [hfind]
  dsimp only
  rw [if_neg (by simp [hown])]
  by_cases hs : b.status = .pending ∨ b.status = .confirmed
  · have hc2 : ¬(b.status ≠ .pending ∧ b.status ≠ .confirmed) := by tauto
    rw [if_neg hc2]
    by_cases ht : hoursUntilStart b.startDate now < 24
    · rw [if_pos ht]
      have ht2 : ¬(now + 86400000 ≤ b.startDate) := by
        rw [hoursUntilStart_lt_24_iff] at ht
        omega
      constructor
      · constructor
        · rintro ⟨hres, -⟩
          exact absurd hres (by simp)
        · rintro ⟨-, hub⟩
          exact absurd hub ht2
      · intro _
        rfl
    · rw [if_neg ht]
      have ht2 : now + 86400000 ≤ b.startDate := by
        rw [hoursUntilStart_lt_24_iff] at ht
        omega
      constructor
      · exact ⟨fun _ => ⟨hs, ht2⟩, fun _ => ⟨rfl, rfl⟩⟩
      · intro hneg
        exact absurd ⟨hs, ht2⟩ hneg
  · have hc2 : b.status ≠ .pending ∧ b.status ≠ .confirmed := by tauto
    rw [if_pos hc2]
    constructor
    · constructor
      · rintro ⟨hres, -⟩
        exact absurd hres (by simp)
      · rintro ⟨hstat, -⟩
        exact absurd hstat hs
    · intro _
      rfl

/-- Witness for C5: guest 2 cancels the pending booking of breachSt1 ten
days ahead of its start. -/
theorem c5_cancel_iff_witness :
    (cancelBooking breachSt1 2 0 1).1 = .cancelled { breachB1 with status := .cancelled } ∧
    (breachB1.status = .pending ∨ breachB1.status = .confirmed) ∧
    (0 : Int) + 86400000 ≤ breachB1.startDate :=
  ⟨((c5_cancel_iff breachSt1 2 0 1 breachB1 (by rw [breachSt1_eq]; rfl) rfl).1.mpr
      ⟨Or.inl rfl, by norm_num [breachB1, dayMs]⟩).1,
    Or.inl rfl, by norm_num [breachB1, dayMs]⟩

/-- A completed booking of guest 2 on property 1, reviewable. -/
def c6Booking : Booking := { breachB1 with status := .completed }

/-- Store holding the completed booking and no reviews yet. -/
def c6St : AppState :=
  { breachSt0 with
    bookings := [c6Booking]
    nextBookingId := 2 }

/-- A review request with the non-integer rating 9/2. -/
def c6Req : ReviewRequest :=
  { bookingId := 1, propertyId := 1, rating := 9/2, comment := none }

/-- The review the handler persists for that request: parseInt(4.5) = 4. -/
def c6Review : Review :=
  { id := 1, propertyId := 1, userId := 2, bookingId := 1, rating := 4, comment := none }

lemma c6add_eq : (addReview c6St 2 c6Req).1 = .created c6Review := by
  have hfl : Int.floor ((9:ℚ)/2) = 4 := by
    rw [Int.floor_eq_iff]
    norm_num
  norm_num [addReview, c6St, c6Booking, breachB1, breachSt0, c6Req, List.find?, c6Review,
    jsTruncToInt, dayMs, hfl]

/-- C6 counterexample: the rating 9/2 is not an integer, yet POST /reviews
accepts the request and persists the truncated rating 4; the claim that any
non-integer rating is rejected fails. -/
theorem c6_counterexample :
    (¬ ∃ n : ℤ, ((9 : ℚ)/2) = (n : ℚ)) ∧
    (addReview c6St 2 c6Req).1 = .created c6Review ∧ c6Review.rating = 4 := by
  refine ⟨?_, c6add_eq, rfl⟩
  rintro ⟨n, hn⟩
  rw [div_eq_iff (by norm_num : (2:ℚ) ≠ 0)] at hn
  have h2 : (9 : ℤ) = n * 2 := by exact_mod_cast hn
  omega

lemma jsTruncToInt_bounds (q : ℚ) (h1 : 1 ≤ q) (h5 : q ≤ 5) :
    1 ≤ jsTruncToInt q ∧ jsTruncToInt q ≤ 5 := by
  unfold jsTruncToInt
  rw [if_neg (by linarith : ¬ q < 0)]
  constructor
  · exact Int.le_floor.mpr (by exact_mod_cast h1)
  · have h := Int.floor_le_floor h5
    have h5' : Int.floor ((5:ℚ)) = 5 := by
      rw [Int.floor_eq_iff]
      norm_num
    rw [h5'] at h
    exact h

/-- C6 (amended): a review is accepted only when the supplied rating is a
number in [1,5]; the persisted rating is its truncation toward zero, itself
an integer in [1,5]; a rating outside [1,5] is rejected — but a non-integer
rating inside the range is accepted, not rejected. -/
theorem c6_rating_amended (st : AppState) (userId : Nat) (req : ReviewRequest) :
    (∀ r, (addReview st userId req).1 = .created r →
      1 ≤ req.rating ∧ req.rating ≤ 5 ∧ r.rating = jsTruncToInt req.rating ∧
      1 ≤ r.rating ∧ r.rating ≤ 5) ∧
    ((req.rating < 1 ∨ 5 < req.rating) → ∀ r, (addReview st userId req).1 ≠ .created r) := by
  constructor
  · intro r hres
    unfold addReview at hres
    split at hres
    · exact absurd hres (by simp)
    split at hres
    · exact absurd hres (by simp)
    next hrange =>
      push_neg at hrange
      obtain ⟨hr1, hr5⟩ := hrange
      split at hres
      · exact absurd hres (by simp)
      · split at hres
        · exact absurd hres (by simp)
        split at hres
        · exact absurd hres (by simp)
        split at hres
        · exact absurd hres (by simp)
        split at hres
        · exact absurd hres (by simp)
        · cases hres
          refine ⟨hr1, hr5, rfl, ?_⟩
          exact jsTruncToInt_bounds req.rating hr1 hr5
  · intro hout r hres
    unfold addReview at hres
    by_cases hc1 : req.bookingId = 0 ∨ req.propertyId = 0 ∨ req.rating = 0
    · rw [if_pos hc1] at hres
      exact absurd hres (by simp)
    · rw [if_neg hc1, if_pos (by tauto : req.rating < 1 ∨ req.rating > 5)] at hres
      exact absurd hres (by simp)

/-- Witness for C6 (amended): applied to the accepted 9/2 request. -/
theorem c6_rating_amended_witness :
    1 ≤ c6Req.rating ∧ c6Req.rating ≤ 5 ∧ c6Review.rating = jsTruncToInt c6Req.rating ∧
    1 ≤ c6Review.rating ∧ c6Review.rating ≤ 5 :=
  (c6_rating_amended c6St 2 c6Req).1 c6Review c6add_eq

/-- C7: when a review for the requested booking already exists, POST
/reviews creates nothing and leaves the store unchanged, whatever the new
rating or comment. -/
theorem c7_review_unique (st : AppState) (userId : Nat) (req : ReviewRequest)
    (hex : ∃ r0 ∈ st.reviews, r0.bookingId = req.bookingId) :
    (∀ r, (addReview st userId req).1 ≠ .created r) ∧ (addReview st userId req).2 = st := by
  have hfind : st.reviews.find? (fun r => r.bookingId == req.bookingId) ≠ none := by
    obtain ⟨r0, hr0, hb⟩ := hex
    intro hnone
    rw [List.find?_eq_none] at hnone
    have hne := hnone r0 hr0
    simp [hb] at hne
  unfold addReview
  split
  · exact ⟨fun r => by simp, rfl⟩
  split
  · exact ⟨fun r => by simp, rfl⟩
  split
  · exact ⟨fun r => by simp, rfl⟩
  split
  · exact ⟨fun r => by simp, rfl⟩
  split
  · exact ⟨fun r => by simp, rfl⟩
  split
  · exact ⟨fun r => by simp, rfl⟩
  split
  · exact ⟨fun r => by simp, rfl⟩
  next hnone => exact absurd hnone hfind

/-- Store already holding the review for booking 1. -/
def c7St : AppState :=
  { breachSt0 with
    bookings := [c6Booking]
    reviews := [c6Review]
    nextBookingId := 2
    nextReviewId := 2 }

/-- A second review attempt for booking 1 with a different rating and
comment. -/
def c7Req : ReviewRequest :=
  { bookingId := 1, propertyId := 1, rating := 5, comment := some "great stay" }

/-- Witness for C7: the second attempt fails and the store is unchanged. -/
theorem c7_review_unique_witness :
    (∀ r, (addReview c7St 2 c7Req).1 ≠ .created r) ∧ (addReview c7St 2 c7Req).2 = c7St :=
  c7_review_unique c7St 2 c7Req ⟨c6Review, by simp [c7St], rfl⟩

/-- C8: a booking request whose startDate lies before the call time never
creates a booking and leaves the store unchanged, whatever the other
fields. -/
theorem c8_past_start (st : AppState) (userId : Nat) (now : Int) (req : BookingRequest)
    (hpast : req.startDate < now) :
    (∀ b, (createBooking st userId now req).1 ≠ .created b) ∧
    (createBooking st userId now req).2 = st := by
  unfold createBooking
  split
  · exact ⟨fun b => by simp, rfl⟩
  · split
    · exact ⟨fun b => by simp, rfl⟩
    split
    · exact ⟨fun b => by simp, rfl⟩
    split
    · exact ⟨fun b => by simp, rfl⟩
    exact ⟨fun b => by simp, rfl⟩

/-- Witness for C8: booking days 10-12 at call time day 20 fails. -/
theorem c8_past_start_witness :
    (∀ b, (createBooking breachSt0 2 (20 * dayMs) breachReq).1 ≠ .created b) ∧
    (createBooking breachSt0 2 (20 * dayMs) breachReq).2 = breachSt0 :=
  c8_past_start breachSt0 2 (20 * dayMs) breachReq (by norm_num [breachReq, dayMs])

/-- C9: when the requesting user is the host of the property, POST /bookings
fails and leaves the store unchanged, regardless of the dates. -/
theorem c9_self_booking (st : AppState) (userId : Nat) (now : Int) (req : BookingRequest)
    (property : Property)
    (hfind : st.properties.find? (fun p => p.id == req.propertyId) = some property)
    (hhost : property.hostId = userId) :
    (∀ b, (createBooking st userId now req).1 ≠ .created b) ∧
    (createBooking st userId now req).2 = st := by
  unfold createBooking
  rw [hfind]
  dsimp only
  split
  · exact ⟨fun b => by simp, rfl⟩
  exact ⟨fun b => by simp, rfl⟩

/-- Witness for C9: host 1 cannot book their own property 1 even with valid
future dates. -/
theorem c9_self_booking_witness :
    (∀ b, (createBooking breachSt0 1 0 breachReq).1 ≠ .created b) ∧
    (createBooking breachSt0 1 0 breachReq).2 = breachSt0 :=
  c9_self_booking breachSt0 1 0 breachReq demoProperty rfl rfl

/-- A property whose availability window only starts at day 100. -/
def c10Property : Property :=
  { demoProperty with id := 2, availableFrom := some (100 * dayMs) }

/-- Store holding only the windowed property. -/
def c10St : AppState :=
  { properties := [c10Property]
    bookings := []
    reviews := []
    nextBookingId := 1
    nextReviewId := 1 }

/-- A request for days 10-12, before the window opens. -/
def c10Req : BookingRequest :=
  { propertyId := 2, startDate := 10 * dayMs, endDate := 12 * dayMs, guestCount := 2 }

/-- C10: POST /bookings never consults availableFrom/availableTo: when the
requested dates fall outside the window but the property is available, the
requester is not the host, the dates are ordered and not past, and no
active booking overlaps, a pending booking is still created and appended —
while the availability endpoint reports the very same dates unavailable. -/
theorem c10_window_ignored (st : AppState) (userId : Nat) (now : Int) (req : BookingRequest)
    (property : Property)
    (hfind : st.properties.find? (fun p => p.id == req.propertyId) = some property)
    (hwindow : (∃ f, property.availableFrom = some f ∧ req.startDate < f) ∨
               (∃ t, property.availableTo = some t ∧ req.endDate > t))
    (havail : property.isAvailable = true)
    (hnotself : property.hostId ≠ userId)
    (horder : req.startDate < req.endDate)
    (hnotpast : now ≤ req.startDate)
    (hnoconf : conflictingBookings st.bookings req.propertyId req.startDate req.endDate = []) :
    (∃ b, (createBooking st userId now req).1 = .created b ∧ b.status = .pending ∧
      (createBooking st userId now req).2.bookings = st.bookings ++ [b]) ∧
    (checkAvailability property st.bookings req.startDate req.endDate).available = false := by
  constructor
  · unfold createBooking
    rw [hfind]
    dsimp only
    rw [if_neg (by simp [havail]), if_neg hnotself,
      if_neg (by omega : ¬ req.startDate ≥ req.endDate),
      if_neg (by omega : ¬ req.startDate < now), if_neg (by simp [hnoconf])]
    exact ⟨_, rfl, rfl, rfl⟩
  · unfold checkAvailability
    rw [if_neg (by simp [havail])]
    rcases hwindow with ⟨f, hf, hlt⟩ | ⟨t, ht, hgt⟩
    · rw [if_pos ((windowStartViolated_iff _ _).mpr ⟨f, hf, hlt⟩)]
    · by_cases hws : windowStartViolated property.availableFrom req.startDate = true
      · rw [if_pos hws]
      · rw [if_neg hws, if_pos ((windowEndViolated_iff _ _).mpr ⟨t, ht, hgt⟩)]

/-- Witness for C10: days 10-12 precede the day-100 window of property 2,
yet the booking is created and appended while the availability endpoint
says not available. -/
theorem c10_window_ignored_witness :
    (∃ b, (createBooking c10St 2 0 c10Req).1 = .created b ∧ b.status = .pending ∧
      (createBooking c10St 2 0 c10Req).2.bookings = c10St.bookings ++ [b]) ∧
    (checkAvailability c10Property c10St.bookings (10 * dayMs) (12 * dayMs)).available
      = false :=
  c10_window_ignored c10St 2 0 c10Req c10Property rfl
    (Or.inl ⟨100 * dayMs, rfl, by norm_num [c10Req, dayMs]⟩)
    rfl (by norm_num [c10Property, demoProperty])
    (by norm_num [c10Req, dayMs]) (by norm_num [c10Req, dayMs]) rfl

end RentalServer
